import Mathlib

/-
Verification of the BigD congestion forecasting engine.

Shallow embedding of:
  - src/ml-service/traffic_model.py   (TrafficPredictionModel.predict)
  - src/server/app/services/ml_service.py
        (MLService.prepare_features, MLService.predict_congestion_xgboost)
  - src/server/app/core/cache.py      (get_cache, set_cache)

Numeric values are modelled as exact rationals; the two opaque trained
regressors and the fitted scaler are modelled as arbitrary functions, so
every theorem quantifying over them holds for all possible raw model
outputs.  Python exceptions are modelled with Except / Option; the Redis
client is modelled as an explicit association-list store with a `failing`
flag standing for an unavailable connection (every operation raises).
Stored entries carry the absolute expiry instant set by SETEX
(insertion time + ttl seconds); a read finds an entry only while the
current time is before its expiry, as Redis expires keys.
Time is modelled as seconds since an epoch: `hourOfDay`, `weekdayOf`
mirror datetime.hour / datetime.weekday(), `hourBucket` mirrors
strftime("%Y%m%d%H") (truncation of the instant to the hour), and the
ttl=1800 passed by the service is 1800 seconds = 30 minutes.
-/

namespace BigD

/-! ## src/ml-service/traffic_model.py -/

namespace TrafficModel

/-- The fitted StandardScaler, opaque: only its transform is relevant at
inference time (parameters frozen at training time). -/
structure Scaler where
  transform : List ℚ → List ℚ

/-- The two opaque trained regressors stored in `self.model = {'rf': ..., 'gb': ...}`,
each mapping a scaled feature vector to a raw predicted congestion. -/
structure EnsembleModel where
  rf : List ℚ → ℚ
  gb : List ℚ → ℚ

/-- The dict returned by TrafficPredictionModel.predict. -/
structure PredictResult where
  congestion : ℚ
  confidence : ℚ
  current_speed : ℚ
  free_flow_speed : ℚ
  speed_reduction_percent : ℚ
deriving DecidableEq, Repr

/-- `is_weekend = int(day_of_week in [5, 6])` -/
def isWeekendInt (day_of_week : ℤ) : ℤ :=
  if day_of_week = 5 ∨ day_of_week = 6 then 1 else 0

/-- `is_rush_hour = int(hour in [7, 8, 9, 17, 18, 19])` -/
def isRushHourInt (hour : ℤ) : ℤ :=
  if hour = 7 ∨ hour = 8 ∨ hour = 9 ∨ hour = 17 ∨ hour = 18 ∨ hour = 19 then 1 else 0

/-- The synthetic historical average used in predict: the if/elif chain on
`is_rush_hour` and `hour`. -/
def historicalAvgBase (hour : ℤ) : ℚ :=
  if isRushHourInt hour = 1 then 70
  else if 11 ≤ hour ∧ hour ≤ 14 then 40
  else if 22 ≤ hour ∨ hour ≤ 5 then 15
  else 35

/-- `if is_weekend: historical_avg *= 0.7` -/
def historicalAvg (hour day_of_week : ℤ) : ℚ :=
  if isWeekendInt day_of_week = 1 then historicalAvgBase hour * (70/100)
  else historicalAvgBase hour

/-- The unscaled feature vector assembled inside predict:
`[hour, day_of_week, is_weekend, is_rush_hour, lat, lon, free_flow_speed, historical_avg]`. -/
def rawFeatures (hour day_of_week : ℤ) (lat lon free_flow_speed : ℚ) : List ℚ :=
  [(hour : ℚ), (day_of_week : ℚ), (isWeekendInt day_of_week : ℚ),
   (isRushHourInt hour : ℚ), lat, lon, free_flow_speed, historicalAvg hour day_of_week]

/-- `rf_pred = self.model['rf'].predict(features_scaled)[0]` -/
def rfRaw (scaler : Scaler) (m : EnsembleModel) (hour day_of_week : ℤ)
    (lat lon free_flow_speed : ℚ) : ℚ :=
  m.rf (scaler.transform (rawFeatures hour day_of_week lat lon free_flow_speed))

/-- `gb_pred = self.model['gb'].predict(features_scaled)[0]` -/
def gbRaw (scaler : Scaler) (m : EnsembleModel) (hour day_of_week : ℤ)
    (lat lon free_flow_speed : ℚ) : ℚ :=
  m.gb (scaler.transform (rawFeatures hour day_of_week lat lon free_flow_speed))

/-- Body of TrafficPredictionModel.predict once the model is known to be
loaded: ensemble mean, np.clip to [0, 100], agreement-based confidence
`max(70, min(95, 95 - |rf_pred - gb_pred|))`, and the derived speed outputs. -/
def predictLoaded (scaler : Scaler) (m : EnsembleModel) (hour day_of_week : ℤ)
    (lat lon free_flow_speed : ℚ) : PredictResult :=
  let rf_pred := rfRaw scaler m hour day_of_week lat lon free_flow_speed
  let gb_pred := gbRaw scaler m hour day_of_week lat lon free_flow_speed
  let congestion := min 100 (max 0 ((rf_pred + gb_pred) / 2))
  let prediction_variance := |rf_pred - gb_pred|
  let confidence := max 70 (min 95 (95 - prediction_variance))
  let speed_reduction := (congestion / 100) * (60/100)
  let current_speed := free_flow_speed * (1 - speed_reduction)
  { congestion := congestion
    confidence := confidence
    current_speed := current_speed
    free_flow_speed := free_flow_speed
    speed_reduction_percent := speed_reduction * 100 }

/-- TrafficPredictionModel.predict: `if self.model is None: raise ValueError(...)`,
otherwise the loaded-path body. -/
def predict (model : Option EnsembleModel) (scaler : Scaler) (hour day_of_week : ℤ)
    (lat lon free_flow_speed : ℚ) : Except String PredictResult :=
  match model with
  | none => .error "Model not trained. Call train() first."
  | some m => .ok (predictLoaded scaler m hour day_of_week lat lon free_flow_speed)

end TrafficModel

/-! ## src/server/app/services/ml_service.py and src/server/app/core/cache.py -/

namespace MLService

/-- `datetime.hour` of an instant given in seconds since the epoch. -/
def hourOfDay (t : ℕ) : ℕ := t / 3600 % 24

/-- `datetime.weekday()` of an instant given in seconds since the epoch. -/
def weekdayOf (t : ℕ) : ℕ := t / 86400 % 7

/-- `strftime("%Y%m%d%H")`: the instant truncated to its hour. -/
def hourBucket (t : ℕ) : ℕ := t / 3600

/-- `timestamp + timedelta(hours=h)` -/
def addHours (t h : ℕ) : ℕ := t + 3600 * h

/-- The part of a datetime value that prepare_features reads. -/
structure Timestamp where
  hour : ℕ
  weekday : ℕ
deriving DecidableEq, Repr

/-- View an instant (minutes since epoch) as the timestamp object handed to
prepare_features. -/
def tsOf (t : ℕ) : Timestamp := ⟨hourOfDay t, weekdayOf t⟩

/-- The `data` dict passed to prepare_features / predict_congestion_xgboost:
every key the code reads with `data.get(key, default)` is optional. -/
structure ObsData where
  timestamp : Option Timestamp
  is_holiday : Option ℚ
  temperature : Option ℚ
  precipitation : Option ℚ
  visibility : Option ℚ
  vehicle_count : Option ℚ
  average_speed : Option ℚ
  incident_reported : Option ℚ
  event_nearby : Option ℚ
  congestion_level : Option ℚ
deriving DecidableEq, Repr

/-- One row of the `historical_data` DataFrame; `.get(col, default)` on a row
yields the default when the column is absent. -/
structure HistRow where
  congestion_level : Option ℚ
  average_speed : Option ℚ
deriving DecidableEq, Repr

/-- Placeholder row for List.getD; every use is guarded by the same length
check the source performs, so it is never actually read. -/
def dummyRow : HistRow := ⟨none, none⟩

/-- `historical_data.iloc[-1].get('congestion_level', 2)` when the window is
non-empty, else `data.get('congestion_level', 2)`. -/
def congestion_lag_1h (data : ObsData) (hist : Option (List HistRow)) : ℚ :=
  match hist with
  | some rows =>
      if 0 < rows.length then
        (rows.getD (rows.length - 1) dummyRow).congestion_level.getD 2
      else data.congestion_level.getD 2
  | none => data.congestion_level.getD 2

/-- `historical_data.iloc[-3].get('congestion_level', 2) if len >= 3 else 2`
inside the non-empty branch, `2` otherwise. -/
def congestion_lag_3h (hist : Option (List HistRow)) : ℚ :=
  match hist with
  | some rows =>
      if 0 < rows.length then
        (if 3 ≤ rows.length then
          (rows.getD (rows.length - 3) dummyRow).congestion_level.getD 2
         else 2)
      else 2
  | none => 2

/-- `historical_data.iloc[-24].get('congestion_level', 2) if len >= 24 else 2`
inside the non-empty branch, `2` otherwise. -/
def congestion_lag_24h (hist : Option (List HistRow)) : ℚ :=
  match hist with
  | some rows =>
      if 0 < rows.length then
        (if 24 ≤ rows.length then
          (rows.getD (rows.length - 24) dummyRow).congestion_level.getD 2
         else 2)
      else 2
  | none => 2

/-- `historical_data.iloc[-1].get('average_speed', 40.0)` when the window is
non-empty, else `data.get('average_speed', 40.0)`. -/
def speed_lag_1h (data : ObsData) (hist : Option (List HistRow)) : ℚ :=
  match hist with
  | some rows =>
      if 0 < rows.length then
        (rows.getD (rows.length - 1) dummyRow).average_speed.getD 40
      else data.average_speed.getD 40
  | none => data.average_speed.getD 40

/-- The schema constant `self.feature_columns` set in load_models. -/
def feature_columns : List String :=
  ["hour_of_day", "day_of_week", "is_weekend", "is_holiday",
   "temperature", "precipitation", "visibility",
   "vehicle_count", "average_speed", "incident_reported",
   "event_nearby", "congestion_lag_1h", "congestion_lag_3h",
   "congestion_lag_24h", "speed_lag_1h"]

/-- The `features` dict built by prepare_features, in Python insertion order;
`now` is the `datetime.utcnow()` default used when `data` has no timestamp. -/
def featuresAssoc (now : Timestamp) (data : ObsData) (hist : Option (List HistRow)) :
    List (String × ℚ) :=
  let timestamp := data.timestamp.getD now
  [("hour_of_day", (timestamp.hour : ℚ)),
   ("day_of_week", (timestamp.weekday : ℚ)),
   ("is_weekend", if 5 ≤ timestamp.weekday then 1 else 0),
   ("is_holiday", data.is_holiday.getD 0),
   ("temperature", data.temperature.getD 20),
   ("precipitation", data.precipitation.getD 0),
   ("visibility", data.visibility.getD 10),
   ("vehicle_count", data.vehicle_count.getD 100),
   ("average_speed", data.average_speed.getD 40),
   ("incident_reported", data.incident_reported.getD 0),
   ("event_nearby", data.event_nearby.getD 0),
   ("congestion_lag_1h", congestion_lag_1h data hist),
   ("congestion_lag_3h", congestion_lag_3h hist),
   ("congestion_lag_24h", congestion_lag_24h hist),
   ("speed_lag_1h", speed_lag_1h data hist)]

/-- `np.array([[features[col] for col in self.feature_columns]])`: a missing
key would raise KeyError, modelled by `none`. -/
def prepare_features (now : Timestamp) (data : ObsData) (hist : Option (List HistRow)) :
    Option (List ℚ) :=
  feature_columns.mapM fun col => (featuresAssoc now data hist).lookup col

/-- Python round-half-to-even on an exact rational, as `round(x)` does. -/
def pyRound (q : ℚ) : ℤ :=
  let f := Int.floor q
  let r := q - (f : ℚ)
  if r < 1/2 then f
  else if 1/2 < r then f + 1
  else if f % 2 = 0 then f else f + 1

/-- Python `round(x, 2)`. -/
def round2 (q : ℚ) : ℚ := (pyRound (q * 100) : ℚ) / 100

/-- One element of the list returned by predict_congestion_xgboost. -/
structure Prediction where
  forecast_hours : ℕ
  target_time : ℕ
  predicted_congestion : ℚ
  congestion_level : ℤ
  confidence : ℚ
  model : String
deriving DecidableEq, Repr

/-- The state of the Redis store behind get_cache / set_cache; each entry
carries the absolute expiry instant fixed by SETEX (insertion time + ttl);
`failing` models an unavailable connection: every operation raises. -/
structure CacheState where
  entries : List (String × ℕ × List Prediction)
  failing : Bool
deriving DecidableEq, Repr

def emptyCache : CacheState := ⟨[], false⟩

/-- `await redis_client.get(key)` at instant `now`: raises when the
connection is down, and an entry whose expiry has been reached no longer
exists (Redis deletes keys at their SETEX deadline). -/
def redisGet (c : CacheState) (now : ℕ) (key : String) :
    Except String (Option (List Prediction)) :=
  if c.failing then .error "Redis connection failed"
  else .ok (match c.entries.lookup key with
            | some (expiry, v) => if now < expiry then some v else none
            | none => none)

/-- `await redis_client.setex(key, ttl, serialized)` at instant `now`:
stores the value with expiry `now + ttl`. -/
def redisSetex (c : CacheState) (now : ℕ) (key : String) (ttl : ℕ)
    (value : List Prediction) : Except String CacheState :=
  if c.failing then .error "Redis connection failed"
  else .ok { c with entries := (key, now + ttl, value) :: c.entries }

/-- cache.get_cache: try the client, return the parsed value, and return None
on any exception. -/
def get_cache (c : CacheState) (now : ℕ) (key : String) : Option (List Prediction) :=
  match redisGet c now key with
  | .error _ => none
  | .ok v => v

/-- cache.set_cache: try the client, return True on success and False on any
exception (leaving the store untouched). -/
def set_cache (c : CacheState) (now : ℕ) (key : String) (value : List Prediction)
    (ttl : ℕ) : Bool × CacheState :=
  match redisSetex c now key ttl value with
  | .error _ => (false, c)
  | .ok c2 => (true, c2)

/-- `f"prediction:xgb:{location_id}:{datetime.utcnow().strftime('%Y%m%d%H')}"` -/
def mkCacheKey (location_id : String) (now : ℕ) : String :=
  "prediction:xgb:" ++ location_id ++ ":" ++ toString (hourBucket now)

/-- Python truthiness of the value returned by get_cache (`if cached:`):
None and the empty list are falsy. -/
def pyTruthy : Option (List Prediction) → Bool
  | some l => !l.isEmpty
  | none => false

/-- The body of one iteration of the `for hours_ahead in forecast_hours` loop:
shift the timestamp, build features, score, attach the decayed coarse
confidence; any exception (KeyError, DMatrix/predict failure) is caught and
the horizon is skipped (`none`). -/
def predictOne (xgb : List ℚ → Except String ℚ) (now : ℕ) (current_data : ObsData)
    (hist : Option (List HistRow)) (hours_ahead : ℕ) : Option Prediction :=
  let forecast_time := addHours now hours_ahead
  let forecast_data := { current_data with timestamp := some (tsOf forecast_time) }
  match prepare_features (tsOf now) forecast_data hist with
  | none => none
  | some features =>
    match xgb features with
    | .error _ => none
    | .ok prediction =>
      let confidence := max (50/100) (min (95/100) (85/100 - (hours_ahead : ℚ) * (2/100)))
      some { forecast_hours := hours_ahead
             target_time := forecast_time
             predicted_congestion := round2 prediction
             congestion_level := pyRound prediction
             confidence := round2 confidence
             model := "xgboost" }

/-- The whole forecast loop: horizons processed in request order, failed
horizons skipped. -/
def computePredictions (xgb : List ℚ → Except String ℚ) (now : ℕ) (current_data : ObsData)
    (hist : Option (List HistRow)) (forecast_hours : List ℕ) : List Prediction :=
  forecast_hours.filterMap (predictOne xgb now current_data hist)

/-- MLService.predict_congestion_xgboost: model-loaded guard, cache lookup,
forecast loop, cache write (ttl 1800) only when the result list is non-empty.
Returns the prediction list together with the resulting cache state. -/
def predict_congestion_xgboost (xgboost_model : Option (List ℚ → Except String ℚ))
    (c : CacheState) (now : ℕ) (location_id : String) (current_data : ObsData)
    (forecast_hours : List ℕ) (hist : Option (List HistRow)) :
    Except String (List Prediction × CacheState) :=
  match xgboost_model with
  | none => .error "XGBoost model not loaded"
  | some xgb =>
    let cache_key := mkCacheKey location_id now
    let cached := get_cache c now cache_key
    if pyTruthy cached then .ok (cached.getD [], c)
    else
      let predictions := computePredictions xgb now current_data hist forecast_hours
      if predictions.isEmpty then .ok (predictions, c)
      else .ok (predictions, (set_cache c now cache_key predictions 1800).2)

/-- Horizon list actually delivered by a call (empty on error). -/
def okHorizons (e : Except String (List Prediction × CacheState)) : List ℕ :=
  match e with
  | .ok r => r.1.map fun p => p.forecast_hours
  | .error _ => []

/-- Equality of modelled call results is decidable (used to evaluate the
embedding at concrete inputs). -/
instance {ε α : Type} [DecidableEq ε] [DecidableEq α] : DecidableEq (Except ε α)
  | .error e, .error f =>
      if h : e = f then .isTrue (by rw [h]) else .isFalse (fun hc => h (by cases hc; rfl))
  | .error _, .ok _ => .isFalse (fun hc => Except.noConfusion hc)
  | .ok _, .error _ => .isFalse (fun hc => Except.noConfusion hc)
  | .ok a, .ok b =>
      if h : a = b then .isTrue (by rw [h]) else .isFalse (fun hc => h (by cases hc; rfl))

end MLService

/-! ## Interleaving model for two concurrent calls (claim C2)

Two asyncio tasks run predict_congestion_xgboost for the same location and
hour bucket, hence the same cache key and (the computation being a pure
function of the shared inputs) the same computed result.  The event loop may
switch tasks at each await point: the `await get_cache` read and the
compute-then-`await set_cache` section are the atomic steps.  A schedule is
the order in which the loop lets the two tasks take their next step. -/

namespace Concurrency

open MLService

/-- Program counter of one task inside predict_congestion_xgboost. -/
inductive Phase
  | atRead
  | atCompute
  | atWrite
  | phDone
deriving DecidableEq, Repr

/-- One task: where it is, and the prediction list it will return. -/
structure Caller where
  phase : Phase
  result : List Prediction
deriving DecidableEq, Repr

/-- Shared cache plus the two tasks; computeCount counts how many times the
underlying forecast loop (the ensemble computation) has been entered. -/
structure Sys where
  cache : CacheState
  callerA : Caller
  callerB : Caller
  computeCount : ℕ
deriving DecidableEq, Repr

/-- Advance one task by one step of predict_congestion_xgboost at the shared
instant `now` (the two racing calls run within the same moment): the cache
read returns a hit (non-empty, Python-truthy) or falls through to the
computation; the computation produces `computed`; the write stores it only
when non-empty, exactly as the source does. -/
def stepCaller (now : ℕ) (key : String) (computed : List Prediction) (c : CacheState)
    (k : Caller) (count : ℕ) : CacheState × Caller × ℕ :=
  match k.phase with
  | .atRead =>
      match get_cache c now key with
      | some cached =>
          if cached.isEmpty then (c, ⟨.atCompute, k.result⟩, count)
          else (c, ⟨.phDone, cached⟩, count)
      | none => (c, ⟨.atCompute, k.result⟩, count)
  | .atCompute => (c, ⟨.atWrite, computed⟩, count + 1)
  | .atWrite =>
      if computed.isEmpty then (c, ⟨.phDone, k.result⟩, count)
      else ((set_cache c now key computed 1800).2, ⟨.phDone, k.result⟩, count)
  | .phDone => (c, k, count)

/-- One scheduler decision: `true` advances task A, `false` task B. -/
def stepSys (now : ℕ) (key : String) (computed : List Prediction) (s : Sys)
    (who : Bool) : Sys :=
  if who then
    let r := stepCaller now key computed s.cache s.callerA s.computeCount
    { cache := r.1, callerA := r.2.1, callerB := s.callerB, computeCount := r.2.2 }
  else
    let r := stepCaller now key computed s.cache s.callerB s.computeCount
    { cache := r.1, callerA := s.callerA, callerB := r.2.1, computeCount := r.2.2 }

/-- Run a schedule from a cold, reachable cache. -/
def runSched (now : ℕ) (key : String) (computed : List Prediction)
    (sched : List Bool) : Sys :=
  sched.foldl (stepSys now key computed) ⟨emptyCache, ⟨.atRead, []⟩, ⟨.atRead, []⟩, 0⟩

end Concurrency

/-! ## Concrete inputs used by witnesses and counterexamples -/

namespace Fixtures

open MLService

/-- Observation dict with every optional key absent. -/
def defaultData : ObsData :=
  ⟨none, none, none, none, none, none, none, none, none, none⟩

/-- A loaded booster that scores every feature vector as 50. -/
def xgbConst : List ℚ → Except String ℚ := fun _ => .ok 50

/-- A loaded booster that raises exactly on the feature vector whose
hour_of_day is 6 — with `now = 0`, that is the 6-hour horizon. -/
def xgbFail6 : List ℚ → Except String ℚ := fun features =>
  if features.getD 0 0 = 6 then .error "feature shape mismatch" else .ok 42

/-- The prediction xgbConst yields for horizon 1 at now = 0. -/
def predH1 : Prediction := ⟨1, 3600, 50, 50, 83/100, "xgboost"⟩

/-- The prediction xgbConst yields for horizon 3 at now = 0. -/
def predH3 : Prediction := ⟨3, 10800, 50, 50, 79/100, "xgboost"⟩

/-- A cache whose backing connection is down. -/
def downCache : CacheState := ⟨[], true⟩

/-- A concrete non-empty prediction list standing for the shared computation
result of two concurrent callers with identical inputs. -/
def predSimple : Prediction := ⟨1, 3600, 50, 50, 1, "xgboost"⟩

/-- A 24-row historical window whose oldest row has congestion 7. -/
def rows24 : List HistRow :=
  ⟨some 7, some 30⟩ :: List.replicate 23 ⟨some 3, some 55⟩

/-- The cache state left behind by a first call at instant 0 for location
"X" in hour bucket 0 that computed and stored [predH1] with ttl 1800: the
entry expires at instant 1800 (30 minutes in). -/
def cacheAfterFirst : CacheState := ⟨[(mkCacheKey "X" 0, 1800, [predH1])], false⟩

/-- An observation dict with every field present and different from
defaultData, used to show the cache key ignores the input observation. -/
def obsAlt : ObsData :=
  ⟨none, some 1, some 5, some 2, some 3, some 200, some 20, some 1, some 1, some 4⟩

end Fixtures

/-! ## Shared lemmas about the embedding -/

namespace MLService

theorem predictOne_forecast_hours (xgb : List ℚ → Except String ℚ) (now : ℕ)
    (data : ObsData) (hist : Option (List HistRow)) (h : ℕ) (p : Prediction)
    (hp : predictOne xgb now data hist h = some p) : p.forecast_hours = h := by
  simp only [predictOne] at hp
  split at hp
  · exact absurd hp (by simp)
  · split at hp
    · exact absurd hp (by simp)
    · injection hp with h1
      rw [← h1]

theorem computePredictions_map_forecast (xgb : List ℚ → Except String ℚ) (now : ℕ)
    (data : ObsData) (hist : Option (List HistRow)) (hours : List ℕ) :
    (computePredictions xgb now data hist hours).map (fun p => p.forecast_hours)
      = hours.filter fun h => (predictOne xgb now data hist h).isSome := by
  induction hours with
  | nil => rfl
  | cons a t ih =>
    simp only [computePredictions, List.filterMap_cons, List.filter_cons] at ih ⊢
    cases hpo : predictOne xgb now data hist a with
    | none => simpa [hpo] using ih
    | some p =>
      have hfh := predictOne_forecast_hours xgb now data hist a p hpo
      simp [hpo, hfh, ih]

theorem prepare_features_explicit (now : Timestamp) (data : ObsData)
    (hist : Option (List HistRow)) :
    prepare_features now data hist
      = some [((data.timestamp.getD now).hour : ℚ), ((data.timestamp.getD now).weekday : ℚ),
              (if 5 ≤ (data.timestamp.getD now).weekday then 1 else 0),
              data.is_holiday.getD 0, data.temperature.getD 20, data.precipitation.getD 0,
              data.visibility.getD 10, data.vehicle_count.getD 100, data.average_speed.getD 40,
              data.incident_reported.getD 0, data.event_nearby.getD 0,
              congestion_lag_1h data hist, congestion_lag_3h hist, congestion_lag_24h hist,
              speed_lag_1h data hist] := rfl

theorem predict_fresh (xgb : List ℚ → Except String ℚ) (now : ℕ) (loc : String)
    (data : ObsData) (hours : List ℕ) (hist : Option (List HistRow)) :
    predict_congestion_xgboost (some xgb) emptyCache now loc data hours hist
      = .ok (computePredictions xgb now data hist hours,
             if (computePredictions xgb now data hist hours).isEmpty then emptyCache
             else (set_cache emptyCache now (mkCacheKey loc now)
                    (computePredictions xgb now data hist hours) 1800).2) := by
  simp only [predict_congestion_xgboost, get_cache, redisGet, emptyCache, List.lookup_nil,
    pyTruthy, Bool.false_eq_true, if_false]
  split <;> simp_all [emptyCache]

theorem pyRound_intCast (n : ℤ) : pyRound (n : ℚ) = n := by
  simp only [pyRound, Int.floor_intCast, sub_self]
  norm_num

theorem round2_coarse (h : ℕ) :
    round2 (max (50/100) (min (95/100) (85/100 - (h : ℚ) * (2/100))))
      = max (50/100) (min (95/100) (85/100 - (h : ℚ) * (2/100))) := by
  have hmin : min ((95:ℚ)/100) (85/100 - (h : ℚ) * (2/100))
      = 85/100 - (h : ℚ) * (2/100) := by
    apply min_eq_right
    have h0 : (0:ℚ) ≤ (h : ℚ) * (2/100) := by positivity
    linarith
  rw [hmin]
  rcases le_total (85/100 - (h : ℚ) * (2/100)) (50/100) with hle | hge
  · rw [max_eq_left hle]
    have e1 : ((50:ℚ)/100) * 100 = ((50 : ℤ) : ℚ) := by norm_num
    simp only [round2]
    rw [e1, pyRound_intCast]
    norm_num
  · rw [max_eq_right hge]
    have e1 : (85/100 - (h : ℚ) * (2/100)) * 100 = ((85 - 2 * (h : ℤ) : ℤ) : ℚ) := by
      push_cast
      ring
    simp only [round2]
    rw [e1, pyRound_intCast]
    push_cast
    ring

theorem predictOne_confidence (xgb : List ℚ → Except String ℚ) (now : ℕ)
    (data : ObsData) (hist : Option (List HistRow)) (h : ℕ) (p : Prediction)
    (hp : predictOne xgb now data hist h = some p) :
    p.confidence = max (50/100) (min (95/100) (85/100 - (h : ℚ) * (2/100))) := by
  simp only [predictOne] at hp
  split at hp
  · exact absurd hp (by simp)
  · split at hp
    · exact absurd hp (by simp)
    · injection hp with hh
      rw [← hh]
      exact round2_coarse h

end MLService

/-! ## Claim theorems -/

open TrafficModel MLService Concurrency Fixtures

/-- Claim C1: with both regressors loaded, TrafficPredictionModel.predict
returns congestion equal to the mean of the two raw regressor outputs clipped
to [0, 100] and confidence equal to clamp(95 − |output_A − output_B|, 70, 95);
hence congestion is always within [0, 100] and confidence within [70, 95],
for arbitrary scaler and regressor outputs. -/
theorem ensemble_clip_and_confidence_bounds (scaler : Scaler) (m : EnsembleModel)
    (hour day_of_week : ℤ) (lat lon ffs : ℚ) :
    TrafficModel.predict (some m) scaler hour day_of_week lat lon ffs
      = .ok (predictLoaded scaler m hour day_of_week lat lon ffs) ∧
    (predictLoaded scaler m hour day_of_week lat lon ffs).congestion
      = min 100 (max 0 ((rfRaw scaler m hour day_of_week lat lon ffs
          + gbRaw scaler m hour day_of_week lat lon ffs) / 2)) ∧
    (predictLoaded scaler m hour day_of_week lat lon ffs).confidence
      = max 70 (min 95 (95 - |rfRaw scaler m hour day_of_week lat lon ffs
          - gbRaw scaler m hour day_of_week lat lon ffs|)) ∧
    (0 ≤ (predictLoaded scaler m hour day_of_week lat lon ffs).congestion ∧
     (predictLoaded scaler m hour day_of_week lat lon ffs).congestion ≤ 100) ∧
    (70 ≤ (predictLoaded scaler m hour day_of_week lat lon ffs).confidence ∧
     (predictLoaded scaler m hour day_of_week lat lon ffs).confidence ≤ 95) := by
  have hc : (predictLoaded scaler m hour day_of_week lat lon ffs).congestion
      = min 100 (max 0 ((rfRaw scaler m hour day_of_week lat lon ffs
          + gbRaw scaler m hour day_of_week lat lon ffs) / 2)) := rfl
  have hf : (predictLoaded scaler m hour day_of_week lat lon ffs).confidence
      = max 70 (min 95 (95 - |rfRaw scaler m hour day_of_week lat lon ffs
          - gbRaw scaler m hour day_of_week lat lon ffs|)) := rfl
  refine ⟨rfl, hc, hf, ⟨?_, ?_⟩, ?_, ?_⟩
  · rw [hc]
    exact le_min (by norm_num) (le_max_left _ _)
  · rw [hc]
    exact min_le_left _ _
  · rw [hf]
    exact le_max_left _ _
  · rw [hf]
    exact max_le (by norm_num) (min_le_left _ _)

/-- Claim C3: horizons are processed independently; a horizon whose
computation raises is omitted from the returned list while every other
requested horizon still yields a prediction, and in particular with horizons
[1, 3, 6, 12, 24] and horizon 6 forced to fail the result contains exactly
the four points for horizons 1, 3, 12, 24. -/
theorem horizon_failure_partial_result :
    (∀ (xgb : List ℚ → Except String ℚ) (now : ℕ) (loc : String) (data : ObsData)
       (hours : List ℕ) (hist : Option (List HistRow)), ∃ preds cach,
      predict_congestion_xgboost (some xgb) emptyCache now loc data hours hist
        = .ok (preds, cach) ∧
      preds.map (fun p => p.forecast_hours)
        = hours.filter fun h => (predictOne xgb now data hist h).isSome) ∧
    okHorizons (predict_congestion_xgboost (some xgbFail6) emptyCache 0 "X"
        defaultData [1, 3, 6, 12, 24] none) = [1, 3, 12, 24] ∧
    (okHorizons (predict_congestion_xgboost (some xgbFail6) emptyCache 0 "X"
        defaultData [1, 3, 6, 12, 24] none)).length = 4 := by
  refine ⟨?_, by decide, by decide⟩
  intro xgb now loc data hours hist
  exact ⟨_, _, predict_fresh xgb now loc data hours hist,
    computePredictions_map_forecast xgb now data hist hours⟩

/-- Claim C4 counterexample: requesting horizons in the order [3, 1] (both
succeeding) returns the predictions in request order [3, 1], which is not
sorted ascending — the claim that the output is always sorted is false. -/
theorem forecast_output_not_sorted :
    okHorizons (predict_congestion_xgboost (some xgbConst) emptyCache 0 "X"
        defaultData [3, 1] none) = [3, 1] ∧
    ¬ List.Sorted (· ≤ ·) (okHorizons (predict_congestion_xgboost (some xgbConst)
        emptyCache 0 "X" defaultData [3, 1] none)) := by
  constructor
  · decide
  · decide

/-- Claim C4 amended: the returned predictions preserve the request order of
forecast_hours (successes in order, failures dropped); hence whenever the
requested horizon list is ascending — as in the documented call
[1, 3, 6, 12, 24] — the returned list is sorted ascending by horizon. -/
theorem forecast_preserves_sorted_horizons (xgb : List ℚ → Except String ℚ)
    (now : ℕ) (loc : String) (data : ObsData) (hours : List ℕ)
    (hist : Option (List HistRow)) (hs : List.Sorted (· ≤ ·) hours) :
    List.Sorted (· ≤ ·)
      (okHorizons (predict_congestion_xgboost (some xgb) emptyCache now loc data hours hist)) := by
  rw [predict_fresh xgb now loc data hours hist]
  show List.Sorted (· ≤ ·)
    ((computePredictions xgb now data hist hours).map fun p => p.forecast_hours)
  rw [computePredictions_map_forecast]
  exact List.Pairwise.filter _ hs

/-- Witness for the amended claim C4 at the documented horizon list. -/
theorem forecast_preserves_sorted_horizons_witness :
    List.Sorted (· ≤ ·) ([1, 3, 6, 12, 24] : List ℕ) ∧
    List.Sorted (· ≤ ·)
      (okHorizons (predict_congestion_xgboost (some xgbConst) emptyCache 0 "X"
        defaultData [1, 3, 6, 12, 24] none)) :=
  ⟨by decide,
   forecast_preserves_sorted_horizons xgbConst 0 "X" defaultData [1, 3, 6, 12, 24] none
     (by decide)⟩

/-- Claim C2 counterexample: two concurrent callers for the same cache key
(same location, same hour bucket, same computed result) can both miss the
cache and both run the underlying ensemble computation.  With the schedule
A-read, B-read, A-compute, A-write, B-compute, B-write, both callers finish
and the computation is entered twice, not exactly once: the code has no
per-key lock or single-flight guard. -/
theorem concurrent_duplicate_computation :
    (runSched 0 (mkCacheKey "X" 0) [predSimple]
        [true, false, true, true, false, false]).computeCount = 2 ∧
    (runSched 0 (mkCacheKey "X" 0) [predSimple]
        [true, false, true, true, false, false]).callerA.phase = Phase.phDone ∧
    (runSched 0 (mkCacheKey "X" 0) [predSimple]
        [true, false, true, true, false, false]).callerB.phase = Phase.phDone ∧
    (runSched 0 (mkCacheKey "X" 0) [predSimple]
        [true, false, true, true, false, false]).callerA.result = [predSimple] ∧
    (runSched 0 (mkCacheKey "X" 0) [predSimple]
        [true, false, true, true, false, false]).callerB.result = [predSimple] ∧
    (runSched 0 (mkCacheKey "X" 0) [predSimple]
        [true, false, true, true, false, false]).computeCount ≠ 1 := by
  decide

/-- Claim C2 amended: the code performs no single-flight collapse under
concurrency (see the counterexample); what does hold is the sequential
variant: when the second caller starts only after the first has completed
and cached a non-empty result, the underlying computation runs exactly once
and both callers receive the identical prediction list. -/
theorem sequential_single_flight (now : ℕ) (key : String) (computed : List Prediction)
    (hne : ¬ computed.isEmpty) :
    (runSched now key computed [true, true, true, false]).computeCount = 1 ∧
    (runSched now key computed [true, true, true, false]).callerA
      = ⟨Phase.phDone, computed⟩ ∧
    (runSched now key computed [true, true, true, false]).callerB
      = ⟨Phase.phDone, computed⟩ := by
  have hlt : now < now + 1800 := by omega
  simp [runSched, stepSys, stepCaller, get_cache, redisGet, set_cache, redisSetex,
    emptyCache, hne, hlt, List.lookup]

/-- Witness for the amended claim C2. -/
theorem sequential_single_flight_witness :
    (¬ ([predSimple] : List Prediction).isEmpty) ∧
    ((runSched 0 "k" [predSimple] [true, true, true, false]).computeCount = 1 ∧
     (runSched 0 "k" [predSimple] [true, true, true, false]).callerA
       = ⟨Phase.phDone, [predSimple]⟩ ∧
     (runSched 0 "k" [predSimple] [true, true, true, false]).callerB
       = ⟨Phase.phDone, [predSimple]⟩) :=
  ⟨by decide, sequential_single_flight 0 "k" [predSimple] (by decide)⟩

/-- Claim C5: for a historical window shorter than 24 rows the
congestion_lag_24h feature is the default constant 2; for a window of 24 or
more rows it is the congestion value of the row 24 positions from the end;
in both cases feature preparation succeeds (never an error). -/
theorem lag24_feature_window (now : Timestamp) (data : ObsData) (rows : List HistRow) :
    (rows.length < 24 →
      ∃ v, prepare_features now data (some rows) = some v ∧ v[13]? = some 2) ∧
    (∀ cg : ℚ, 24 ≤ rows.length →
      (rows.getD (rows.length - 24) dummyRow).congestion_level = some cg →
      ∃ v, prepare_features now data (some rows) = some v ∧ v[13]? = some cg) := by
  constructor
  · intro hlt
    have hn : ¬ 24 ≤ rows.length := by omega
    have h24 : congestion_lag_24h (some rows) = 2 := by
      simp [congestion_lag_24h, hn]
    exact ⟨_, prepare_features_explicit now data (some rows), by simp [h24]⟩
  · intro cg hge hc
    have h0 : 0 < rows.length := by omega
    have h24 : congestion_lag_24h (some rows) = cg := by
      simp only [congestion_lag_24h, if_pos h0, if_pos hge, hc, Option.getD_some]
    exact ⟨_, prepare_features_explicit now data (some rows), by simp [h24]⟩

/-- Witness for claim C5: a 24-row window whose oldest row has congestion 7
yields 7, and the empty window yields the default 2. -/
theorem lag24_feature_window_witness :
    rows24.length < 25 ∧ (24 ≤ rows24.length ∧
      (rows24.getD (rows24.length - 24) dummyRow).congestion_level = some 7 ∧
      (∃ v, prepare_features ⟨8, 1⟩ defaultData (some rows24) = some v ∧
        v[13]? = some 7)) ∧
    (([] : List HistRow).length < 24 ∧
      (∃ v, prepare_features ⟨8, 1⟩ defaultData (some []) = some v ∧
        v[13]? = some 2)) :=
  ⟨by decide,
   ⟨by decide, by decide,
    (lag24_feature_window ⟨8, 1⟩ defaultData rows24).2 7 (by decide) (by decide)⟩,
   by decide,
   (lag24_feature_window ⟨8, 1⟩ defaultData []).1 (by decide)⟩

/-- Claim C6: for an observation with every optional field present, the
built feature vector is exactly the fixed 15-field schema, in exactly the
order of the schema constant feature_columns. -/
theorem feature_vector_schema (ts : Timestamp) (ih tp pr vis vc sp ir ev cl : ℚ)
    (now : Timestamp) (hist : Option (List HistRow)) :
    feature_columns.length = 15 ∧
    (prepare_features now
        ⟨some ts, some ih, some tp, some pr, some vis, some vc, some sp, some ir,
         some ev, some cl⟩ hist).map List.length = some 15 ∧
    prepare_features now
        ⟨some ts, some ih, some tp, some pr, some vis, some vc, some sp, some ir,
         some ev, some cl⟩ hist
      = some [(ts.hour : ℚ), (ts.weekday : ℚ), (if 5 ≤ ts.weekday then 1 else 0),
              ih, tp, pr, vis, vc, sp, ir, ev,
              congestion_lag_1h ⟨some ts, some ih, some tp, some pr, some vis, some vc,
                some sp, some ir, some ev, some cl⟩ hist,
              congestion_lag_3h hist, congestion_lag_24h hist,
              speed_lag_1h ⟨some ts, some ih, some tp, some pr, some vis, some vc,
                some sp, some ir, some ev, some cl⟩ hist] := by
  refine ⟨by decide, ?_, ?_⟩
  · rw [prepare_features_explicit]
    simp
  · rw [prepare_features_explicit]
    simp

/-- Claim C7: prediction with no loaded model raises the distinct
"model not loaded" error and never returns a prediction, in both the
standalone engine (TrafficPredictionModel.predict) and the service path
(predict_congestion_xgboost); with a model loaded neither raises that
error (the standalone engine returns its result, and the service path
always returns a prediction list). -/
theorem model_not_loaded_fail_closed (scaler : Scaler) (m : EnsembleModel)
    (hour day_of_week : ℤ) (lat lon ffs : ℚ)
    (xgb : List ℚ → Except String ℚ) (c : CacheState) (now : ℕ) (loc : String)
    (data : ObsData) (hours : List ℕ) (hist : Option (List HistRow)) :
    TrafficModel.predict none scaler hour day_of_week lat lon ffs
      = .error "Model not trained. Call train() first." ∧
    TrafficModel.predict (some m) scaler hour day_of_week lat lon ffs
      = .ok (predictLoaded scaler m hour day_of_week lat lon ffs) ∧
    predict_congestion_xgboost none c now loc data hours hist
      = .error "XGBoost model not loaded" ∧
    (∃ out, predict_congestion_xgboost (some xgb) c now loc data hours hist
      = .ok out) := by
  refine ⟨rfl, rfl, rfl, ?_⟩
  by_cases h1 : pyTruthy (get_cache c now (mkCacheKey loc now))
  · exact ⟨((get_cache c now (mkCacheKey loc now)).getD [], c),
      by simp [predict_congestion_xgboost, h1]⟩
  · by_cases h2 : (computePredictions xgb now data hist hours).isEmpty
    · exact ⟨(computePredictions xgb now data hist hours, c),
        by simp [predict_congestion_xgboost, h1, h2]⟩
    · exact ⟨(computePredictions xgb now data hist hours,
        (set_cache c now (mkCacheKey loc now)
          (computePredictions xgb now data hist hours) 1800).2),
        by simp [predict_congestion_xgboost, h1, h2]⟩

/-- Claim C8: in the coarse scoring path the reported confidence for horizon
h equals clamp(0.85 − 0.02·h, 0.5, 0.95) (written with exact rationals), is
monotonically non-increasing in h, and never leaves [0.5, 0.95]. -/
theorem coarse_confidence_decay (xgb : List ℚ → Except String ℚ) (now : ℕ)
    (data : ObsData) (hist : Option (List HistRow)) (h1 h2 : ℕ) (p1 p2 : Prediction)
    (hp1 : predictOne xgb now data hist h1 = some p1)
    (hp2 : predictOne xgb now data hist h2 = some p2)
    (hle : h1 ≤ h2) :
    p1.confidence = max (50/100) (min (95/100) (85/100 - (h1 : ℚ) * (2/100))) ∧
    50/100 ≤ p1.confidence ∧ p1.confidence ≤ 95/100 ∧
    p2.confidence ≤ p1.confidence := by
  have e1 := predictOne_confidence xgb now data hist h1 p1 hp1
  have e2 := predictOne_confidence xgb now data hist h2 p2 hp2
  refine ⟨e1, ?_, ?_, ?_⟩
  · rw [e1]
    exact le_max_left _ _
  · rw [e1]
    exact max_le (by norm_num) (min_le_left _ _)
  · rw [e1, e2]
    have hc : (h1 : ℚ) ≤ (h2 : ℚ) := by exact_mod_cast hle
    have hx : 85/100 - (h2 : ℚ) * (2/100) ≤ 85/100 - (h1 : ℚ) * (2/100) := by linarith
    exact max_le_max le_rfl (min_le_min le_rfl hx)

unseal Rat.mul Rat.inv Rat.add Rat.sub in
/-- Witness for claim C8 at horizons 1 and 3. -/
theorem coarse_confidence_decay_witness :
    predictOne xgbConst 0 defaultData none 1 = some predH1 ∧
    predictOne xgbConst 0 defaultData none 3 = some predH3 ∧
    (1 : ℕ) ≤ 3 ∧
    (predH1.confidence = max (50/100) (min (95/100) (85/100 - ((1 : ℕ) : ℚ) * (2/100))) ∧
     50/100 ≤ predH1.confidence ∧ predH1.confidence ≤ 95/100 ∧
     predH3.confidence ≤ predH1.confidence) :=
  ⟨by decide, by decide, by decide,
   coarse_confidence_decay xgbConst 0 defaultData none 1 3 predH1 predH3
     (by decide) (by decide) (by decide)⟩

/-- Claim C9: when the cache layer is unavailable (the client raises),
get_cache returns None instead of propagating, set_cache returns False, and
the prediction call still succeeds by direct computation with the cache left
untouched — a cache failure never raises out of the prediction path. -/
theorem cache_failure_degrades (c : CacheState) (key : String) (v : List Prediction)
    (ttl : ℕ) (xgb : List ℚ → Except String ℚ) (now : ℕ) (loc : String)
    (data : ObsData) (hours : List ℕ) (hist : Option (List HistRow))
    (hfail : c.failing = true) :
    get_cache c now key = none ∧
    set_cache c now key v ttl = (false, c) ∧
    predict_congestion_xgboost (some xgb) c now loc data hours hist
      = .ok (computePredictions xgb now data hist hours, c) := by
  refine ⟨by simp [get_cache, redisGet, hfail],
          by simp [set_cache, redisSetex, hfail], ?_⟩
  simp only [predict_congestion_xgboost, get_cache, redisGet, hfail, if_true,
    pyTruthy, Bool.false_eq_true, if_false, set_cache, redisSetex]
  split <;> rfl

/-- Witness for claim C9 on a concrete down cache. -/
theorem cache_failure_degrades_witness :
    downCache.failing = true ∧
    (get_cache downCache 0 "k" = none ∧
     set_cache downCache 0 "k" [predSimple] 1800 = (false, downCache) ∧
     predict_congestion_xgboost (some xgbConst) downCache 0 "X" defaultData [1] none
       = .ok (computePredictions xgbConst 0 defaultData none [1], downCache)) :=
  ⟨by decide,
   cache_failure_degrades downCache "k" [predSimple] 1800 xgbConst 0 "X"
     defaultData [1] none (by decide)⟩

unseal Rat.mul Rat.inv Rat.add Rat.sub in
/-- Claim C10 counterexample: the cached entry expires 1800 seconds (30
minutes) after insertion, before the hour bucket ends.  A first call at
instant 0 caches its non-empty result; a second call at instant 1860 (31
minutes later, still hour bucket 0, matching the spec's "miss at t+31min")
finds the entry expired, misses, and recomputes with its own forecast_hours
[3] — it does not return the cached result unchanged, so the claim is false
for arbitrary second calls within the same UTC hour. -/
theorem cache_expires_within_bucket :
    hourBucket 0 = hourBucket 1860 ∧
    predict_congestion_xgboost (some xgbConst) emptyCache 0 "X" defaultData [1] none
      = .ok ([predH1], cacheAfterFirst) ∧
    ([predH1] : List Prediction) ≠ [] ∧
    okHorizons (predict_congestion_xgboost (some xgbConst) cacheAfterFirst 1860 "X"
        defaultData [3] none) = [3] ∧
    okHorizons (predict_congestion_xgboost (some xgbConst) cacheAfterFirst 1860 "X"
        defaultData [3] none) ≠ [predH1].map (fun p => p.forecast_hours) := by
  refine ⟨by decide, by decide, by decide, by decide, by decide⟩

/-- Claim C10 amended: the cache key depends only on the location and the
current UTC hour bucket, not on forecast_hours, the observation, or the
historical window; after a first call (cache miss, non-empty result) caches
its result with ttl 1800 s, any second call with the same location in the
same hour bucket issued before the entry's 30-minute expiry — with a
different model function, observation, horizon list and historical window —
returns the first call's cached result unchanged.  (Beyond the TTL the
entry has expired and the second call recomputes: see the counterexample.) -/
theorem cache_key_ignores_inputs (xgb1 xgb2 : List ℚ → Except String ℚ)
    (c c2 : CacheState) (now1 now2 : ℕ) (loc : String) (d1 d2 : ObsData)
    (hrs1 hrs2 : List ℕ) (hist1 hist2 : Option (List HistRow))
    (preds : List Prediction)
    (hfail : c.failing = false)
    (hmiss : c.entries.lookup (mkCacheKey loc now1) = none)
    (hbucket : hourBucket now1 = hourBucket now2)
    (httl : now2 < now1 + 1800)
    (hrun : predict_congestion_xgboost (some xgb1) c now1 loc d1 hrs1 hist1
              = .ok (preds, c2))
    (hne : preds ≠ []) :
    predict_congestion_xgboost (some xgb2) c2 now2 loc d2 hrs2 hist2
      = .ok (preds, c2) := by
  have hkey : mkCacheKey loc now2 = mkCacheKey loc now1 := by
    simp [mkCacheKey, hbucket]
  have hget : get_cache c now1 (mkCacheKey loc now1) = none := by
    simp [get_cache, redisGet, hfail, hmiss]
  have hfwd : predict_congestion_xgboost (some xgb1) c now1 loc d1 hrs1 hist1
      = .ok (computePredictions xgb1 now1 d1 hist1 hrs1,
             if (computePredictions xgb1 now1 d1 hist1 hrs1).isEmpty then c
             else ⟨(mkCacheKey loc now1, now1 + 1800,
                    computePredictions xgb1 now1 d1 hist1 hrs1) :: c.entries, false⟩) := by
    simp only [predict_congestion_xgboost, hget, pyTruthy, Bool.false_eq_true, if_false,
      set_cache, redisSetex, hfail]
    split
    · rfl
    · simp [hfail]
  rw [hfwd] at hrun
  injection hrun with hpair
  have hp : computePredictions xgb1 now1 d1 hist1 hrs1 = preds := congrArg Prod.fst hpair
  have hc2 := congrArg Prod.snd hpair
  subst hp
  have hEmp : (computePredictions xgb1 now1 d1 hist1 hrs1).isEmpty = false := by
    cases hcp : computePredictions xgb1 now1 d1 hist1 hrs1 with
    | nil => exact absurd hcp hne
    | cons a t => rfl
  simp only [hEmp, Bool.false_eq_true, if_false] at hc2
  subst hc2
  have hget2 : get_cache
      ⟨(mkCacheKey loc now1, now1 + 1800,
        computePredictions xgb1 now1 d1 hist1 hrs1) :: c.entries, false⟩
      now2 (mkCacheKey loc now2)
      = some (computePredictions xgb1 now1 d1 hist1 hrs1) := by
    simp [get_cache, redisGet, hkey, List.lookup, httl]
  simp [predict_congestion_xgboost, pyTruthy, hget2, hEmp]

unseal Rat.mul Rat.inv Rat.add Rat.sub in
/-- Witness for the amended claim C10: first call at instant 0 for location
"X" with horizon [1]; second call at instant 60 (same hour bucket, well
inside the 30-minute TTL) with a different model function, observation,
horizons and window returns the cached result. -/
theorem cache_key_ignores_inputs_witness :
    emptyCache.failing = false ∧
    emptyCache.entries.lookup (mkCacheKey "X" 0) = none ∧
    hourBucket 0 = hourBucket 60 ∧
    (60 : ℕ) < 0 + 1800 ∧
    predict_congestion_xgboost (some xgbConst) emptyCache 0 "X" defaultData [1] none
      = .ok ([predH1], cacheAfterFirst) ∧
    ([predH1] : List Prediction) ≠ [] ∧
    predict_congestion_xgboost (some xgbFail6) cacheAfterFirst 60 "X" obsAlt [2, 3]
        (some rows24)
      = .ok ([predH1], cacheAfterFirst) :=
  ⟨by decide, by decide, by decide, by decide, by decide, by decide,
   cache_key_ignores_inputs xgbConst xgbFail6 emptyCache cacheAfterFirst 0 60 "X"
     defaultData obsAlt [1] [2, 3] none (some rows24) [predH1]
     (by decide) (by decide) (by decide) (by decide) (by decide) (by decide)⟩

end BigD
